import Mathlib

/-!
Verification of the tunnel core of netpump-go.

The definitions below are a shallow embedding of the Go sources:
the server package (handleStream, the relay loops, wsAdapter.Read) and the
client package (dialThroughTunnel, handleLocalWebSocket, wsAdapter.Read).

Conventions: a Go byte is a Nat (Go byte conversions reduce the value
modulo 256), a byte slice is a List Nat, a websocket message is a List Nat,
and fallible operations return Option or a dedicated outcome type.
-/

namespace Netpump

/-- Models the Tunnel Request construction in the client function
dialThroughTunnel: the header is one length byte followed by the address
bytes.  In Go the length byte is the conversion byte(len(addr)), which
reduces the length modulo 256; there is no guard on len(addr). -/
def tunnelRequestHeader (addr : List Nat) : List Nat :=
  (addr.length % 256) :: addr

/-- Models the Acceptor parse at the top of the server function
handleStream: read one length byte, then exactly that many address bytes
via io.ReadFull.  A short read (fewer bytes available than announced, or no
length byte at all) makes io.ReadFull fail and handleStream return, modelled
by none.  On success it returns the parsed address bytes (the Go string
addrBuf) and the remaining input of the stream. -/
def readTargetAddress (input : List Nat) : Option (List Nat × List Nat) :=
  match input with
  | [] => none
  | l :: rest => if rest.length < l then none else some (rest.take l, rest.drop l)

/-- State of the wsAdapter (identical in the client and the server package):
the current inbound message cursor (the Go field reader: none models a nil
io.Reader, some bs a per-message reader with bs the bytes not yet consumed;
some [] is an exhausted reader whose io.EOF has not been observed yet), the
messages still to be delivered by the websocket connection, and whether the
channel has closed. -/
structure WsAdapter where
  reader : Option (List Nat)
  incoming : List (List Nat)
  chanClosed : Bool
deriving DecidableEq

/-- One result of the gorilla/websocket per-message reader used by
wsAdapter.Read.  Modelled library behaviour: while bytes remain, Read
copies up to n of them and returns a nil error, even when this consumes the
message exactly to its end; a Read on an already exhausted message returns
(0, io.EOF). -/
inductive MsgRead where
  | bytes (out : List Nat)
  | eof
deriving DecidableEq

/-- The per-message reader: given the caller's buffer capacity n and the
unconsumed bytes of the current message, return the read result and the
bytes still unconsumed afterwards. -/
def messageReaderRead (n : Nat) (cursor : List Nat) : MsgRead × List Nat :=
  match cursor with
  | [] => (MsgRead.eof, [])
  | b :: bs => (MsgRead.bytes ((b :: bs).take n), (b :: bs).drop n)

/-- Outcome of one wsAdapter.Read call: ok out models (len(out), nil);
eofToCaller models returning io.EOF to the caller (the code never does);
chanErr models NextReader failing because the channel closed or errored;
blocked models NextReader having to wait for a message that has not
arrived. -/
inductive ReadOutcome where
  | ok (out : List Nat)
  | eofToCaller
  | chanErr
  | blocked
deriving DecidableEq

/-- Models wsAdapter.Read (same code in the client and the server package):
if no cursor exists, fetch the next message via NextReader (error if the
channel ended, block if none is available); then read from the per-message
reader; if that read reports io.EOF, clear the cursor and return (0, nil)
instead of surfacing the EOF; otherwise keep the unconsumed remainder as
the cursor. -/
def wsAdapterRead (n : Nat) (st : WsAdapter) : ReadOutcome × WsAdapter :=
  match st.reader with
  | some bs =>
    match messageReaderRead n bs with
    | (MsgRead.eof, _) => (ReadOutcome.ok [], { st with reader := none })
    | (MsgRead.bytes out, remaining) =>
      (ReadOutcome.ok out, { st with reader := some remaining })
  | none =>
    match st.incoming with
    | [] => if st.chanClosed then (ReadOutcome.chanErr, st) else (ReadOutcome.blocked, st)
    | m :: rest =>
      match messageReaderRead n m with
      | (MsgRead.eof, _) =>
        (ReadOutcome.ok [], { st with reader := none, incoming := rest })
      | (MsgRead.bytes out, remaining) =>
        (ReadOutcome.ok out, { st with reader := some remaining, incoming := rest })

/-- State of the client's session manager, the fields muxSession and wsConn
of the Client struct.  The two fields are set and cleared together under
muxMu, and each attached websocket carries exactly one yamux session, so one
identifier stands for the pair.  current is the published reference
(c.muxSession); attached records every session that ever attached; dead
records every session whose underlying channel or session has been closed.
attached and dead are bookkeeping used to express liveness: a session is
live when it attached and is not dead. -/
structure ClientMux where
  current : Option Nat
  attached : List Nat
  dead : List Nat
deriving DecidableEq

/-- The idle manager state: no session attached yet. -/
def muxInit : ClientMux := ClientMux.mk none [] []

/-- Models the attach section of the client function handleLocalWebSocket:
under muxMu, if c.wsConn is non-nil close it (which closes the transport
under the prior current session, killing that session), then publish the
new websocket and its fresh yamux session as current.  The error branch of
yamux.Server is unreachable with a nil config, so attach always
publishes. -/
def handleAttach (st : ClientMux) (sid : Nat) : ClientMux :=
  ClientMux.mk (some sid) (sid :: st.attached)
    (match st.current with
     | some prev => prev :: st.dead
     | none => st.dead)

/-- Models the close section of the client function handleLocalWebSocket:
after the session's CloseChan fires (so session sid is closed), the handler
takes muxMu and sets c.muxSession and c.wsConn to nil unconditionally; it
performs no comparison with the closing session. -/
def handleSessionClose (st : ClientMux) (sid : Nat) : ClientMux :=
  ClientMux.mk none st.attached (sid :: st.dead)

/-- A session is live when it attached and neither an attach nor its own
close handler has recorded its death. -/
def isLive (st : ClientMux) (s : Nat) : Prop :=
  s ∈ st.attached ∧ s ∉ st.dead

instance (st : ClientMux) (s : Nat) : Decidable (isLive st s) := by
  unfold isLive; infer_instance

/-- What the client function dialThroughTunnel observes on one iteration of
its wait loop: either c.muxSession is non-nil and Open succeeds yielding a
stream, or it is non-nil and Open fails, or it is nil and the select then
observes the context cancelled or the 1-second tick. -/
inductive PollObs where
  | sessionOpenOk (sid : Nat)
  | sessionOpenErr
  | noSession (cancelled : Bool)
deriving DecidableEq

/-- Outcome of the wait loop of dialThroughTunnel: a stream was opened; the
session's Open failed (error returned directly, not retried); the context
was cancelled (ctx.Err() returned); or the loop exhausted its attempts and
the timeout error is returned. -/
inductive DialWaitOutcome where
  | opened (sid : Nat)
  | openFailed
  | ctxCancelled
  | tunnelUnavailable
deriving DecidableEq

/-- The wait loop of dialThroughTunnel from iteration index i with the given
number of iterations left.  With no iterations left the loop has ended with
stream == nil and the timeout error is returned. -/
def dialWaitFrom (env : Nat → PollObs) : Nat → Nat → DialWaitOutcome
  | _, 0 => DialWaitOutcome.tunnelUnavailable
  | i, fuel + 1 =>
    match env i with
    | PollObs.sessionOpenOk sid => DialWaitOutcome.opened sid
    | PollObs.sessionOpenErr => DialWaitOutcome.openFailed
    | PollObs.noSession true => DialWaitOutcome.ctxCancelled
    | PollObs.noSession false => dialWaitFrom env (i + 1) fuel

/-- Models the wait loop of dialThroughTunnel: for retries from 0 to 29
(each no-session iteration waits one second, a 30 second ceiling), observe
the environment and act as the code does. -/
def dialWaitLoop (env : Nat → PollObs) : DialWaitOutcome :=
  dialWaitFrom env 0 30

/-- Result of net.DialTimeout on the target address in handleStream (a
timeout is just one kind of failure). -/
inductive DialNet where
  | ok
  | failed
deriving DecidableEq

/-- Observable trace of one handleStream run on the server: the payload of
every stream.Write the function performs before the relay loops, whether
the relay phase was entered, and whether the deferred closes of the stream
and of the dialed connection ran. -/
structure StreamTrace where
  writes : List (List Nat)
  relayStarted : Bool
  streamClosed : Bool
  connClosed : Bool
deriving DecidableEq

/-- Models the server function handleStream up to the relay loops.  input
is the byte stream arriving on the logical stream, dial gives the result of
net.DialTimeout on the parsed address, and wRes gives the environment's
success or failure of each stream.Write the function performs; the Go code
discards the return values of the two status writes (lines 124 and 130), so
wRes influences nothing.  A parse failure writes nothing and returns (the
deferred stream.Close runs); a dial failure writes the single byte 0x01 and
returns; a dial success writes the single byte 0x00 and enters the relay,
after which the deferred closes of both the stream and the connection
run. -/
def handleStream (input : List Nat) (dial : List Nat → DialNet)
    (wRes : List Bool) : StreamTrace :=
  match readTargetAddress input with
  | none => StreamTrace.mk [] false true false
  | some (addr, _rest) =>
    match dial addr with
    | DialNet.failed => StreamTrace.mk [[1]] false true false
    | DialNet.ok => StreamTrace.mk [[0]] true true true

/-- State of the relay phase of handleStream: direction 1 is the
io.Copy(conn, stream) goroutine (src1 the bytes the stream will deliver,
out1 the bytes written to the connection so far, done1 whether that io.Copy
has returned and signalled done); direction 2 is io.Copy(stream, conn)
symmetrically; closed records whether the main goroutine received the first
done signal and returned, running the deferred conn.Close and
stream.Close (both sides close together). -/
structure RelayState where
  src1 : List Nat
  out1 : List Nat
  done1 : Bool
  src2 : List Nat
  out2 : List Nat
  done2 : Bool
  closed : Bool
deriving DecidableEq

/-- One scheduler choice in the relay phase: let copy goroutine 1 or 2 take
a step, or let the main goroutine consume a done signal and close both
sides. -/
inductive RelayStep where
  | copyStep1
  | copyStep2
  | closeStep
deriving DecidableEq

/-- Small-step semantics of the relay phase with copy chunk size k (io.Copy
moves at most one buffer per read/write round).  A copy goroutine whose
io.Copy already returned does nothing; after the closes it observes an I/O
error, so io.Copy returns without moving bytes and signals done; on
end-of-input io.Copy returns and signals done; otherwise it moves the next
chunk.  The main goroutine closes both sides once either direction has
signalled done, and only then. -/
def relayStepRun (k : Nat) (st : RelayState) : RelayStep → RelayState
  | RelayStep.copyStep1 =>
    if st.done1 then st
    else if st.closed then { st with done1 := true }
    else
      match st.src1 with
      | [] => { st with done1 := true }
      | b :: bs =>
        { st with src1 := (b :: bs).drop k, out1 := st.out1 ++ (b :: bs).take k }
  | RelayStep.copyStep2 =>
    if st.done2 then st
    else if st.closed then { st with done2 := true }
    else
      match st.src2 with
      | [] => { st with done2 := true }
      | b :: bs =>
        { st with src2 := (b :: bs).drop k, out2 := st.out2 ++ (b :: bs).take k }
  | RelayStep.closeStep =>
    if (st.done1 || st.done2) && !st.closed then { st with closed := true } else st

/-- The relay phase started on a stream pre-loaded with bytes a and a
connection pre-loaded with bytes b, run under an arbitrary schedule. -/
def relayRun (k : Nat) (a b : List Nat) (sched : List RelayStep) : RelayState :=
  sched.foldl (relayStepRun k) (RelayState.mk a [] false b [] false false)

/-- The per-run soundness facts of the relay phase: each direction's
delivered bytes followed by its undelivered remainder are exactly its
source (delivery is unmodified and in order), and the sides are closed only
after some direction signalled done. -/
def relayOk (a b : List Nat) (st : RelayState) : Prop :=
  st.out1 ++ st.src1 = a ∧ st.out2 ++ st.src2 = b ∧
    (st.closed = true → st.done1 = true ∨ st.done2 = true)

/-- A concrete adapter state: a partially consumed message and one queued
message. -/
def wsSt5 : WsAdapter := WsAdapter.mk (some [10, 20, 30]) [[40]] false

/-- A concrete adapter state: a two-byte cursor and an empty queue. -/
def wsSt9 : WsAdapter := WsAdapter.mk (some [7, 8]) [] false

/-- The manager state after attach of session 0 then attach of session 1:
session 0 was superseded (its channel closed), session 1 is current. -/
def muxStaleState : ClientMux := handleAttach (handleAttach muxInit 0) 1

/-- The manager state after the race: attach 0, attach 1 (supersedes 0),
session 0's stale close handler fires, then attach 2.  The stale close
cleared the reference to session 1, so the attach of session 2 found
c.wsConn nil and closed nothing. -/
def muxRaceState : ClientMux :=
  handleAttach (handleSessionClose (handleAttach (handleAttach muxInit 0) 1) 0) 2

/-- A concrete wait-loop environment: no session for the first two polls,
then a session whose Open yields stream 7. -/
def envW : Nat → PollObs :=
  fun i => if i < 2 then PollObs.noSession false else PollObs.sessionOpenOk 7

/-- A dialer that always fails (the target always refuses or times out). -/
def dialNever : List Nat → DialNet := fun _ => DialNet.failed

/-- A dialer that always succeeds. -/
def dialAlways : List Nat → DialNet := fun _ => DialNet.ok

/-- The schedule exhibiting relay truncation: direction 1 drains its one
chunk and signals done, the main goroutine closes both sides, and only then
is direction 2 scheduled, which now observes the closed pair and returns
without delivering anything. -/
def relayCexSched : List RelayStep :=
  [RelayStep.copyStep1, RelayStep.copyStep1, RelayStep.closeStep, RelayStep.copyStep2]

/-- A schedule that drains direction 1 and then closes. -/
def relayWSched : List RelayStep :=
  [RelayStep.copyStep1, RelayStep.copyStep1, RelayStep.closeStep]

/-- Claim C4: for every target address with byte length at most 255, the
Initiator's encoding (one length byte then the address bytes, written by
dialThroughTunnel) composed with the Acceptor's decoding (read one length
byte then exactly that many address bytes, in handleStream) yields back the
identical address, with the rest of the stream untouched. -/
theorem tunnel_request_roundtrip (addr rest : List Nat) (h : addr.length ≤ 255) :
    readTargetAddress (tunnelRequestHeader addr ++ rest) = some (addr, rest) := by
  have hmod : addr.length % 256 = addr.length :=
    Nat.mod_eq_of_lt (Nat.lt_succ_of_le h)
  simp [tunnelRequestHeader, readTargetAddress, hmod]

/-- Witness for claim C4 at a concrete two-byte address. -/
theorem tunnel_request_roundtrip_witness :
    ([104, 105] : List Nat).length ≤ 255 ∧
      readTargetAddress (tunnelRequestHeader [104, 105] ++ [0]) =
        some ([104, 105], [0]) :=
  ⟨by decide, tunnel_request_roundtrip [104, 105] [0] (by decide)⟩

/-- Claim C1, counterexample: a 256-byte target address is not rejected by
dialThroughTunnel; the Tunnel Request is constructed anyway, and its
1-byte length field has overflowed to 0, which differs from the real
address length. -/
theorem tunnelRequestHeader_overflow_cex :
    tunnelRequestHeader (List.replicate 256 97) = 0 :: List.replicate 256 97 ∧
      (List.replicate 256 97).length = 256 ∧ (0 : Nat) ≠ 256 := by
  have hl : (List.replicate 256 (97 : Nat)).length = 256 := by
    simp only [List.length_replicate]
  refine ⟨?_, hl, by omega⟩
  simp only [tunnelRequestHeader, hl]

/-- Claim C1 as amended: no boundary check exists; dialThroughTunnel
constructs the request for a target address of any length, with length
byte equal to the length reduced modulo 256, so for every address longer
than 255 bytes the Acceptor's decoding can never recover the original
address from the encoded request. -/
theorem tunnelRequestHeader_truncates (addr : List Nat) (h : 255 < addr.length) :
    Option.map Prod.fst (readTargetAddress (tunnelRequestHeader addr)) ≠ some addr := by
  have hlt : addr.length % 256 < addr.length :=
    Nat.lt_of_lt_of_le (Nat.mod_lt _ (by omega)) (by omega)
  have hparse : readTargetAddress (tunnelRequestHeader addr) =
      some (addr.take (addr.length % 256), addr.drop (addr.length % 256)) := by
    simp [tunnelRequestHeader, readTargetAddress, Nat.not_lt.mpr (Nat.le_of_lt hlt)]
  rw [hparse]
  intro hc
  have hc2 : addr.take (addr.length % 256) = addr := by
    simpa using hc
  have hlen := congrArg List.length hc2
  have hmin : min (addr.length % 256) addr.length = addr.length % 256 :=
    Nat.min_eq_left (Nat.le_of_lt hlt)
  rw [List.length_take, hmin] at hlen
  omega

/-- Witness for the amended claim C1 at the concrete 256-byte address. -/
theorem tunnelRequestHeader_truncates_witness :
    255 < (List.replicate 256 97).length ∧
      Option.map Prod.fst (readTargetAddress (tunnelRequestHeader (List.replicate 256 97))) ≠
        some (List.replicate 256 97) :=
  ⟨by simp only [List.length_replicate]; omega,
    tunnelRequestHeader_truncates (List.replicate 256 97)
      (by simp only [List.length_replicate]; omega)⟩

/-- Claim C5: a wsAdapter.Read call with a non-exhausted cursor copies as
many bytes as fit into the caller's buffer, keeps the unconsumed remainder
as the cursor, and fetches no new message; an end-of-stream style result
arises only when there is no cursor, no buffered message and the channel
has closed — never merely because one message ended; an exhausted cursor is
cleared so that a subsequent read fetches the next message. -/
theorem wsAdapterRead_spec (n : Nat) (st : WsAdapter) :
    (∀ b bs, st.reader = some (b :: bs) →
      wsAdapterRead n st =
        (ReadOutcome.ok ((b :: bs).take n),
          { st with reader := some ((b :: bs).drop n) })) ∧
    (∀ st1, wsAdapterRead n st = (ReadOutcome.chanErr, st1) →
      st.reader = none ∧ st.incoming = [] ∧ st.chanClosed = true) ∧
    (st.reader = some [] →
      wsAdapterRead n st = (ReadOutcome.ok [], { st with reader := none })) := by
  refine ⟨?_, ?_, ?_⟩
  · intro b bs h
    simp [wsAdapterRead, h, messageReaderRead]
  · intro st1 h
    cases hr : st.reader with
    | some bs =>
      cases bs <;> simp [wsAdapterRead, hr, messageReaderRead] at h
    | none =>
      cases hi : st.incoming with
      | cons m rest =>
        cases m <;> simp [wsAdapterRead, hr, hi, messageReaderRead] at h
      | nil =>
        cases hc : st.chanClosed with
        | true => exact ⟨rfl, rfl, rfl⟩
        | false => simp [wsAdapterRead, hr, hi, hc] at h
  · intro h
    simp [wsAdapterRead, h, messageReaderRead]

/-- Witness for claim C5: reading 2 bytes from a 3-byte cursor returns the
first two bytes and keeps the third, leaving the queued message alone. -/
theorem wsAdapterRead_spec_witness :
    wsSt5.reader = some (10 :: [20, 30]) ∧
      wsAdapterRead 2 wsSt5 =
        (ReadOutcome.ok [10, 20], WsAdapter.mk (some [30]) [[40]] false) :=
  ⟨rfl, ((wsAdapterRead_spec 2 wsSt5).1 10 [20, 30] rfl).trans (by decide)⟩

/-- Claim C9: a wsAdapter.Read can return zero bytes with a nil error: when
a previous read consumed the message exactly to its end without observing
its io.EOF (leaving an exhausted cursor), the next read clears the cursor
and returns (0, nil) rather than blocking for the next message; a
zero-length message delivered by the channel likewise yields (0, nil) with
the cursor cleared; and the per-message reader's io.EOF is never returned
to the caller. -/
theorem wsAdapterRead_zero_read (n m : Nat) (st : WsAdapter) :
    (∀ b bs, st.reader = some (b :: bs) → (b :: bs).length ≤ n →
      (wsAdapterRead n st).2.reader = some [] ∧
        wsAdapterRead m (wsAdapterRead n st).2 =
          (ReadOutcome.ok [], { st with reader := none })) ∧
    (∀ rest, st.reader = none → st.incoming = [] :: rest →
      wsAdapterRead n st =
        (ReadOutcome.ok [], { st with reader := none, incoming := rest })) ∧
    (∀ st1, wsAdapterRead n st ≠ (ReadOutcome.eofToCaller, st1)) := by
  refine ⟨?_, ?_, ?_⟩
  · intro b bs h hlen
    have hdrop : (b :: bs).drop n = [] := List.drop_eq_nil_of_le hlen
    have h1 : wsAdapterRead n st =
        (ReadOutcome.ok ((b :: bs).take n),
          { st with reader := some ((b :: bs).drop n) }) := by
      simp [wsAdapterRead, h, messageReaderRead]
    rw [h1, hdrop]
    exact ⟨rfl, by simp [wsAdapterRead, messageReaderRead]⟩
  · intro rest hr hi
    simp [wsAdapterRead, hr, hi, messageReaderRead]
  · intro st1
    cases hr : st.reader with
    | some bs => cases bs <;> simp [wsAdapterRead, hr, messageReaderRead]
    | none =>
      cases hi : st.incoming with
      | nil => cases hc : st.chanClosed <;> simp [wsAdapterRead, hr, hi, hc]
      | cons m rest => cases m <;> simp [wsAdapterRead, hr, hi, messageReaderRead]

/-- Witness for claim C9: a 5-byte read of a 2-byte cursor leaves the
exhausted cursor in place, and the following read returns zero bytes with
no error and clears it. -/
theorem wsAdapterRead_zero_read_witness :
    wsSt9.reader = some (7 :: [8]) ∧ (7 :: [8] : List Nat).length ≤ 5 ∧
      (wsAdapterRead 5 wsSt9).2.reader = some [] ∧
      wsAdapterRead 1 (wsAdapterRead 5 wsSt9).2 =
        (ReadOutcome.ok [], WsAdapter.mk none [] false) :=
  ⟨rfl, by decide, ((wsAdapterRead_zero_read 5 1 wsSt9).1 7 [8] rfl (by decide)).1,
    (((wsAdapterRead_zero_read 5 1 wsSt9).1 7 [8] rfl (by decide)).2).trans (by decide)⟩

/-- Claim C2, counterexample: with session 1 current after it superseded
session 0, the firing of session 0's stale close handler is not a no-op:
it clears the current-session reference, so session 1 does not remain
current. -/
theorem handleSessionClose_stale_cex :
    muxStaleState.current = some 1 ∧
      handleSessionClose muxStaleState 0 ≠ muxStaleState ∧
      (handleSessionClose muxStaleState 0).current ≠ some 1 := by
  decide

/-- Claim C2 as amended: the close handler clears the current-session
reference unconditionally, with no comparison against the closing session;
after attach of a, attach of b and the stale close of a, the reference is
nil while the superseding session b is still attached and not closed. -/
theorem handleSessionClose_unconditional (st : ClientMux) (a b : Nat)
    (hcur : st.current = none) (hb : b ∉ st.dead) (hab : a ≠ b) :
    (handleSessionClose (handleAttach (handleAttach st a) b) a).current = none ∧
      b ∈ (handleSessionClose (handleAttach (handleAttach st a) b) a).attached ∧
      b ∉ (handleSessionClose (handleAttach (handleAttach st a) b) a).dead := by
  have hdead : (handleSessionClose (handleAttach (handleAttach st a) b) a).dead
      = a :: a :: st.dead := by
    simp [handleAttach, handleSessionClose, hcur]
  refine ⟨rfl, by simp [handleAttach, handleSessionClose], ?_⟩
  rw [hdead]
  intro hmem
  simp only [List.mem_cons] at hmem
  rcases hmem with h1 | h1 | h1
  · exact hab h1.symm
  · exact hab h1.symm
  · exact hb h1

/-- Witness for the amended claim C2 on the concrete race from the idle
state with sessions 0 and 1. -/
theorem handleSessionClose_unconditional_witness :
    muxInit.current = none ∧ (1 : Nat) ∉ muxInit.dead ∧ (0 : Nat) ≠ 1 ∧
      (handleSessionClose (handleAttach (handleAttach muxInit 0) 1) 0).current = none ∧
      1 ∈ (handleSessionClose (handleAttach (handleAttach muxInit 0) 1) 0).attached ∧
      1 ∉ (handleSessionClose (handleAttach (handleAttach muxInit 0) 1) 0).dead := by
  refine ⟨rfl, by decide, by decide, ?_⟩
  exact handleSessionClose_unconditional muxInit 0 1 rfl (by decide) (by decide)

/-- Claim C3, counterexample: after the reachable event sequence attach 0,
attach 1, stale close of 0, attach 2, the sessions 1 and 2 are both
attached and neither has been closed — two live sessions at once, so at
most one live session per endpoint is violated. -/
theorem two_live_sessions_cex :
    isLive muxRaceState 1 ∧ isLive muxRaceState 2 ∧ (1 : Nat) ≠ 2 := by
  decide

/-- Claim C3 as amended: when the current-session reference is non-nil, a
new attach closes the referenced prior session first and publishes the new
session as the sole current one; this does not yield at most one live
session at every instant, because a live session orphaned by a stale close
is invisible to later attaches (the counterexample above). -/
theorem handleAttach_supersedes (st : ClientMux) (sid prev : Nat)
    (h : st.current = some prev) :
    (handleAttach st sid).current = some sid ∧
      prev ∈ (handleAttach st sid).dead ∧
      sid ∈ (handleAttach st sid).attached := by
  refine ⟨rfl, ?_, by simp [handleAttach]⟩
  simp [handleAttach, h]

/-- Witness for the amended claim C3: attaching session 1 while session 0
is current kills 0 and makes 1 current. -/
theorem handleAttach_supersedes_witness :
    (handleAttach muxInit 0).current = some 0 ∧
      (handleAttach (handleAttach muxInit 0) 1).current = some 1 ∧
      0 ∈ (handleAttach (handleAttach muxInit 0) 1).dead ∧
      1 ∈ (handleAttach (handleAttach muxInit 0) 1).attached :=
  ⟨rfl, handleAttach_supersedes (handleAttach muxInit 0) 1 0 rfl⟩

/-- Auxiliary: while the environment reports no session and no
cancellation, the wait loop of dialThroughTunnel just advances to the next
iteration. -/
theorem dialWaitFrom_skip (env : Nat → PollObs) (c : Nat) :
    ∀ i fuel, c ≤ fuel → (∀ j, j < c → env (i + j) = PollObs.noSession false) →
      dialWaitFrom env i fuel = dialWaitFrom env (i + c) (fuel - c) := by
  induction c with
  | zero => intro i fuel _ _; simp
  | succ n ih =>
    intro i fuel hc h
    cases fuel with
    | zero => omega
    | succ f =>
      have h0 : env i = PollObs.noSession false := by
        have := h 0 (Nat.succ_pos n)
        simpa using this
      have step : dialWaitFrom env i (f + 1) = dialWaitFrom env (i + 1) f := by
        simp [dialWaitFrom, h0]
      rw [step]
      have ihh := ih (i + 1) f (by omega) (by
        intro j hj
        have hji := h (j + 1) (by omega)
        have heq : i + (j + 1) = i + 1 + j := by omega
        rw [heq] at hji
        exact hji)
      rw [ihh]
      have e1 : i + 1 + n = i + (n + 1) := by omega
      have e2 : f - n = f + 1 - (n + 1) := by omega
      rw [e1, e2]

/-- Claim C6, counterexample: when the context is already cancelled and no
session ever attaches, dialThroughTunnel returns the context's error
(ctx.Err()), which is not the TunnelUnavailable timeout error; the claim
says a cancellation also fails with TunnelUnavailable. -/
theorem dialWaitLoop_cancel_cex :
    dialWaitLoop (fun _ => PollObs.noSession true) = DialWaitOutcome.ctxCancelled ∧
      DialWaitOutcome.ctxCancelled ≠ DialWaitOutcome.tunnelUnavailable :=
  ⟨rfl, by decide⟩

/-- Claim C6 as amended: with no session the loop polls once per second for
up to 30 attempts and fails with TunnelUnavailable when the ceiling is
reached; if a session attaches at some attempt within the ceiling the open
delegates to the session's open-stream call, a success returns the stream,
and an open error is surfaced directly without retry; a cancellation
observed before the ceiling makes the call fail with the context's own
error, not TunnelUnavailable. -/
theorem dialWaitLoop_spec (env : Nat → PollObs) :
    ((∀ i, i < 30 → env i = PollObs.noSession false) →
      dialWaitLoop env = DialWaitOutcome.tunnelUnavailable) ∧
    (∀ k sid, k < 30 → (∀ i, i < k → env i = PollObs.noSession false) →
      env k = PollObs.sessionOpenOk sid →
      dialWaitLoop env = DialWaitOutcome.opened sid) ∧
    (∀ k, k < 30 → (∀ i, i < k → env i = PollObs.noSession false) →
      env k = PollObs.sessionOpenErr →
      dialWaitLoop env = DialWaitOutcome.openFailed) ∧
    (∀ k, k < 30 → (∀ i, i < k → env i = PollObs.noSession false) →
      env k = PollObs.noSession true →
      dialWaitLoop env = DialWaitOutcome.ctxCancelled) := by
  have skip : ∀ k, k ≤ 30 → (∀ i, i < k → env i = PollObs.noSession false) →
      dialWaitLoop env = dialWaitFrom env k (30 - k) := by
    intro k hk h
    have hs := dialWaitFrom_skip env k 0 30 hk (by intro j hj; simpa using h j hj)
    simpa [dialWaitLoop] using hs
  refine ⟨?_, ?_, ?_, ?_⟩
  · intro h
    have hs := skip 30 (by omega) (fun i hi => h i hi)
    simpa [dialWaitFrom] using hs
  · intro k sid hk h hke
    rw [skip k (by omega) h]
    have h30 : 30 - k = (29 - k) + 1 := by omega
    rw [h30]
    simp [dialWaitFrom, hke]
  · intro k hk h hke
    rw [skip k (by omega) h]
    have h30 : 30 - k = (29 - k) + 1 := by omega
    rw [h30]
    simp [dialWaitFrom, hke]
  · intro k hk h hke
    rw [skip k (by omega) h]
    have h30 : 30 - k = (29 - k) + 1 := by omega
    rw [h30]
    simp [dialWaitFrom, hke]

/-- Witness for the amended claim C6: no session for two polls, then a
session whose Open yields stream 7, makes the dial succeed with that
stream. -/
theorem dialWaitLoop_spec_witness :
    (∀ i, i < 2 → envW i = PollObs.noSession false) ∧
      envW 2 = PollObs.sessionOpenOk 7 ∧
      dialWaitLoop envW = DialWaitOutcome.opened 7 :=
  ⟨by decide, by decide,
    (dialWaitLoop_spec envW).2.1 2 7 (by decide) (by decide) (by decide)⟩

/-- Claim C7: on every accepted stream whose Tunnel Request parses and
whose dial fails (including by timeout), handleStream writes exactly one
0x01 status byte, does not enter the relay, and the stream is closed with
no further bytes written after the status byte. -/
theorem handleStream_dial_failure (input addr rest : List Nat)
    (dial : List Nat → DialNet) (wRes : List Bool)
    (hparse : readTargetAddress input = some (addr, rest))
    (hdial : dial addr = DialNet.failed) :
    handleStream input dial wRes = StreamTrace.mk [[1]] false true false := by
  simp [handleStream, hparse, hdial]

/-- Witness for claim C7 on a concrete request for a three-byte address
with an always-failing dialer. -/
theorem handleStream_dial_failure_witness :
    readTargetAddress [3, 97, 98, 99, 5] = some ([97, 98, 99], [5]) ∧
      dialNever [97, 98, 99] = DialNet.failed ∧
      handleStream [3, 97, 98, 99, 5] dialNever [true] =
        StreamTrace.mk [[1]] false true false :=
  ⟨by decide, rfl,
    handleStream_dial_failure [3, 97, 98, 99, 5] [97, 98, 99] [5] dialNever [true]
      (by decide) rfl⟩

/-- Claim C10: handleStream discards the results of both status writes: the
whole observable trace is the same for every assignment of write outcomes,
and in particular on dial success the relay phase is entered even when the
0x00 status write failed. -/
theorem handleStream_ignores_write_result (input : List Nat)
    (dial : List Nat → DialNet) (w1 w2 : List Bool) :
    handleStream input dial w1 = handleStream input dial w2 ∧
      (∀ addr rest, readTargetAddress input = some (addr, rest) →
        dial addr = DialNet.ok →
        (handleStream input dial w1).relayStarted = true) := by
  constructor
  · rfl
  · intro addr rest hparse hdial
    simp [handleStream, hparse, hdial]

/-- Witness for claim C10: a failing and a succeeding status write produce
the same trace, and the relay starts after a successful dial even with the
failing write. -/
theorem handleStream_ignores_write_result_witness :
    readTargetAddress [1, 120] = some ([120], []) ∧
      dialAlways [120] = DialNet.ok ∧
      handleStream [1, 120] dialAlways [false] =
        handleStream [1, 120] dialAlways [true] ∧
      (handleStream [1, 120] dialAlways [false]).relayStarted = true :=
  ⟨by decide, rfl,
    (handleStream_ignores_write_result [1, 120] dialAlways [false] [true]).1,
    (handleStream_ignores_write_result [1, 120] dialAlways [false] [true]).2
      [120] [] (by decide) rfl⟩

/-- Auxiliary: each relay step preserves the soundness facts. -/
theorem relayStepRun_preserves (k : Nat) (a b : List Nat) (st : RelayState)
    (e : RelayStep) (h : relayOk a b st) : relayOk a b (relayStepRun k st e) := by
  obtain ⟨h1, h2, h3⟩ := h
  cases e with
  | copyStep1 =>
    simp only [relayStepRun]
    split
    · exact ⟨h1, h2, h3⟩
    · split
      · exact ⟨h1, h2, fun _ => Or.inl rfl⟩
      · split
        · exact ⟨h1, h2, fun _ => Or.inl rfl⟩
        · rename_i bb bs hs
          refine ⟨?_, h2, h3⟩
          rw [hs] at h1
          rw [List.append_assoc, List.take_append_drop]
          exact h1
  | copyStep2 =>
    simp only [relayStepRun]
    split
    · exact ⟨h1, h2, h3⟩
    · split
      · exact ⟨h1, h2, fun _ => Or.inr rfl⟩
      · split
        · exact ⟨h1, h2, fun _ => Or.inr rfl⟩
        · rename_i bb bs hs
          refine ⟨h1, ?_, h3⟩
          rw [hs] at h2
          rw [List.append_assoc, List.take_append_drop]
          exact h2
  | closeStep =>
    simp only [relayStepRun]
    split
    · rename_i hcond
      refine ⟨h1, h2, fun _ => ?_⟩
      have hor := (Bool.and_eq_true _ _).mp hcond
      exact (Bool.or_eq_true _ _).mp hor.1
    · exact ⟨h1, h2, h3⟩

/-- Auxiliary: the soundness facts hold after any schedule. -/
theorem relayRun_ok_aux (k : Nat) (a b : List Nat) :
    ∀ (s : List RelayStep) (st : RelayState), relayOk a b st →
      relayOk a b (s.foldl (relayStepRun k) st) := by
  intro s
  induction s with
  | nil => intro st h; exact h
  | cons e s ih =>
    intro st h
    exact ih _ (relayStepRun_preserves k a b st e h)

/-- Claim C8, counterexample: with the stream pre-loaded with one byte and
the connection pre-loaded with one byte, a reachable schedule lets
direction 1 finish, the main goroutine then closes both sides, and
direction 2 terminates on the closed pair having delivered none of its
bytes: the relay does not deliver all bytes in each direction. -/
theorem relayRun_truncation_cex :
    (relayRun 4 [5] [7] relayCexSched).done1 = true ∧
      (relayRun 4 [5] [7] relayCexSched).done2 = true ∧
      (relayRun 4 [5] [7] relayCexSched).closed = true ∧
      (relayRun 4 [5] [7] relayCexSched).out1 = [5] ∧
      (relayRun 4 [5] [7] relayCexSched).out2 = [] ∧
      ([] : List Nat) ≠ [7] := by
  decide

/-- Claim C8 as amended: under every schedule, each direction's delivered
bytes followed by its undelivered remainder are exactly its source — bytes
are delivered unmodified and in order, so a direction that runs to
completion delivers everything — and the two sides are closed only after
one of the directions has completed and signalled done; the close may
terminate the other direction before it has delivered all of its bytes. -/
theorem relayRun_spec (k : Nat) (a b : List Nat) (s : List RelayStep) :
    (relayRun k a b s).out1 ++ (relayRun k a b s).src1 = a ∧
      (relayRun k a b s).out2 ++ (relayRun k a b s).src2 = b ∧
      ((relayRun k a b s).closed = true →
        (relayRun k a b s).done1 = true ∨ (relayRun k a b s).done2 = true) :=
  relayRun_ok_aux k a b s (RelayState.mk a [] false b [] false false)
    ⟨rfl, rfl, fun h => nomatch h⟩

/-- Witness for the amended claim C8: draining direction 1 and closing
leaves direction 1 fully delivered and the pair closed after a done
signal. -/
theorem relayRun_spec_witness :
    (relayRun 1 [9] [8] relayWSched).closed = true ∧
      (relayRun 1 [9] [8] relayWSched).out1 ++ (relayRun 1 [9] [8] relayWSched).src1 = [9] ∧
      (relayRun 1 [9] [8] relayWSched).out2 ++ (relayRun 1 [9] [8] relayWSched).src2 = [8] ∧
      ((relayRun 1 [9] [8] relayWSched).done1 = true ∨
        (relayRun 1 [9] [8] relayWSched).done2 = true) :=
  ⟨by decide, (relayRun_spec 1 [9] [8] relayWSched).1,
    (relayRun_spec 1 [9] [8] relayWSched).2.1,
    (relayRun_spec 1 [9] [8] relayWSched).2.2 (by decide)⟩

end Netpump
